import Mathlib

/-!
Shallow embedding of the clock-bot-cron scheduler core: the retry
controller (`executeWithRetry`), the cron tick handler (`scheduleTask`),
the annual-leave skip service, the public-holiday skip service and the
clock-in/clock-out action gate, together with theorems checking the
specification's claims against these definitions.
-/

namespace ClockBot

/-! ### Configuration (mirrors `config.features` and `config.retry`) -/

structure Features where
  retryMechanism : Bool
  skipOnAnnualLeaves : Bool
  skipOnHolidays : Bool
deriving Repr, DecidableEq

structure RetryParams where
  maxAttempts : Nat
  delayMinutes : Nat
deriving Repr, DecidableEq

structure Config where
  features : Features
  retry : RetryParams
deriving Repr, DecidableEq

/-- delayMs as computed in `executeWithRetry`: `delayMinutes * 60 * 1000`. -/
def Config.delayMs (c : Config) : Nat := c.retry.delayMinutes * 60 * 1000

/-! ### Log events emitted by the scheduler service -/

inductive LogEntry where
  | successOnRetry (attempt : Nat)
  | errorAttempt (attempt maxAttempts : Nat)
  | warnScheduleRetry (next : Nat)
  | retryAttempt (attempt : Nat)
  | warnRetryDisabled
  | finalFailure (maxAttempts : Nat)
  | dropOverlap
  | triggeredLog
  | skipAnnualLeaveLog (reason : Option String)
  | skipHolidayLog (reason : String)
  | proceedLog (reason : String)
deriving Repr, DecidableEq

/-- one invocation of the work unit: the wall-clock time at which
`callback()` was entered and the `attempt` counter in force. -/
structure Invocation where
  time : Nat
  attempt : Nat
deriving Repr, DecidableEq

structure ChainResult where
  invocations : List Invocation
  log : List LogEntry
deriving Repr, DecidableEq

/-- Model of `SchedulerService.executeWithRetry`.  `behav n` is the
success/failure outcome of the work unit's `n`-th invocation (counting
from 0 across the whole chain), `dur` the wall-clock duration of one
invocation of `callback()`, `t` the time the current attempt is entered.
On failure with the retry feature enabled and `attempt <
maxAttempts`, the next attempt fires `delayMs` after the current one
finished (`setTimeout` of `delayMs` started once the catch block runs). -/
def executeWithRetry (cfg : Config) (behav : Nat → Bool) (dur : Nat)
    (invIdx : Nat) (t : Nat) (attempt : Nat) : ChainResult :=
  if behav invIdx then
    ⟨[⟨t, attempt⟩], if 1 < attempt then [LogEntry.successOnRetry attempt] else []⟩
  else
    if h : cfg.features.retryMechanism = true ∧ attempt < cfg.retry.maxAttempts then
      let rest := executeWithRetry cfg behav dur (invIdx + 1)
        (t + dur + cfg.delayMs) (attempt + 1)
      ⟨⟨t, attempt⟩ :: rest.invocations,
        LogEntry.errorAttempt attempt cfg.retry.maxAttempts ::
        LogEntry.warnScheduleRetry (attempt + 1) ::
        LogEntry.retryAttempt (attempt + 1) :: rest.log⟩
    else if cfg.features.retryMechanism = false then
      ⟨[⟨t, attempt⟩],
        [LogEntry.errorAttempt attempt cfg.retry.maxAttempts, LogEntry.warnRetryDisabled]⟩
    else
      ⟨[⟨t, attempt⟩],
        [LogEntry.errorAttempt attempt cfg.retry.maxAttempts,
         LogEntry.finalFailure cfg.retry.maxAttempts]⟩
termination_by cfg.retry.maxAttempts - attempt
decreasing_by
  omega

/-! ### Annual leaves service (`annual-leaves.service.js`) -/

/-- a calendar date as parsed from a `YYYY-MM-DD` string; `new Date(s)`
turns such a string into the UTC-midnight timestamp, and timestamp order
on those dates is exactly lexicographic order on (year, month, day). -/
structure YMD where
  y : Nat
  m : Nat
  d : Nat
deriving Repr, DecidableEq

/-- `checkDate <= other` on the UTC-midnight timestamps produced by
`new Date("YYYY-MM-DD")`. -/
def YMD.le (a b : YMD) : Bool :=
  decide (a.y < b.y ∨ (a.y = b.y ∧ (a.m < b.m ∨ (a.m = b.m ∧ a.d ≤ b.d))))

structure Leave where
  startDate : YMD
  endDate : YMD
  type : String
  reason : String
deriving Repr, DecidableEq

/-- `AnnualLeavesService.getLeaveDetails`: first leave whose inclusive
range `[startDate, endDate]` contains the date. -/
def getLeaveDetails (leaves : List Leave) (date : YMD) : Option Leave :=
  leaves.find? (fun l => YMD.le l.startDate date && YMD.le date l.endDate)

/-- `AnnualLeavesService.isAnnualLeave`. -/
def isAnnualLeave (leaves : List Leave) (date : YMD) : Bool :=
  leaves.any (fun l => YMD.le l.startDate date && YMD.le date l.endDate)

structure ALSkipResult where
  shouldSkip : Bool
  reason : Option String
  date : YMD
  leave : Option Leave
deriving Repr, DecidableEq

/-- `AnnualLeavesService.shouldSkipTask`; `leave.reason || 'no reason
specified'` treats the empty string as falsy. -/
def alShouldSkipTask (leaves : List Leave) (date : YMD) : ALSkipResult :=
  match getLeaveDetails leaves date with
  | some leave =>
    ⟨true,
     some ("Annual leave (" ++
       (if leave.reason = "" then "no reason specified" else leave.reason) ++ ")"),
     date, some leave⟩
  | none => ⟨false, none, date, none⟩

/-! ### Holiday service (`holiday.service.js`) -/

structure Holiday where
  summary : String
  date : String
  description : String
deriving Repr, DecidableEq

/-- the two observations `HolidayService` makes of a JS `Date`:
`getDay()` (0 = Sunday … 6 = Saturday) and
`toISOString().split('T')[0]` (the `YYYY-MM-DD` part). -/
structure JSDate where
  dayOfWeek : Fin 7
  isoDate : String
deriving Repr, DecidableEq

/-- `HolidayService.isWeekday`: `day >= 1 && day <= 5`. -/
def isWeekday (date : JSDate) : Bool :=
  decide (1 ≤ date.dayOfWeek.val ∧ date.dayOfWeek.val ≤ 5)

structure HolidayCache where
  holidays : List Holiday
  lastFetched : Option Nat
deriving Repr, DecidableEq

def cacheValidHours : Nat := 24

/-- `HolidayService.isCacheValid`: `!this.cache.lastFetched` is true for
both `null` and the (theoretical) timestamp `0`, and an empty holiday
list also invalidates; otherwise the age in hours must be below 24. -/
def isCacheValid (c : HolidayCache) (now : Nat) : Bool :=
  match c.lastFetched with
  | none => false
  | some t =>
    if t = 0 then false
    else if c.holidays.length = 0 then false
    else decide ((now - t) / (1000 * 60 * 60) < cacheValidHours)

/-- `HolidayService.getHolidays`, parameterised by the outcome
`fetchResult` the remote `fetchHolidays` call would produce.  Returns
the holidays (or the propagated fetch error), the cache afterwards, and
whether a remote fetch was performed. -/
def getHolidays (c : HolidayCache) (now : Nat)
    (fetchResult : Except String (List Holiday)) :
    Except String (List Holiday) × HolidayCache × Bool :=
  if isCacheValid c now then (Except.ok c.holidays, c, false)
  else
    match fetchResult with
    | Except.error e => (Except.error e, c, true)
    | Except.ok hs => (Except.ok hs, ⟨hs, some now⟩, true)

/-- `HolidayService.isHoliday`: look the date up in the fetched list. -/
def isHoliday (c : HolidayCache) (now : Nat)
    (fetchResult : Except String (List Holiday)) (date : JSDate) :
    Except String (Option Holiday) × HolidayCache × Bool :=
  match getHolidays c now fetchResult with
  | (Except.ok hs, c2, f) =>
    (Except.ok (hs.find? (fun h => h.date == date.isoDate)), c2, f)
  | (Except.error e, c2, f) => (Except.error e, c2, f)

structure HolSkipResult where
  shouldSkip : Bool
  reason : String
  date : String
  holiday : Option Holiday
deriving Repr, DecidableEq

/-- `HolidayService.shouldSkipTask`: weekend first (no cache touched),
then the holiday lookup; a failing lookup is caught, logged as a
warning, and the task is not skipped.  The last component is the list
of warning messages logged. -/
def holShouldSkipTask (c : HolidayCache) (now : Nat)
    (fetchResult : Except String (List Holiday)) (date : JSDate) :
    HolSkipResult × HolidayCache × Bool × List String :=
  if !(isWeekday date) then
    (⟨true, "Weekend", date.isoDate, none⟩, c, false, [])
  else
    match isHoliday c now fetchResult date with
    | (Except.ok (some h), c2, f) =>
      (⟨true, "Public Holiday: " ++ h.summary, date.isoDate, some h⟩, c2, f, [])
    | (Except.ok none, c2, f) =>
      (⟨false, "Regular working day", date.isoDate, none⟩, c2, f, [])
    | (Except.error _, c2, f) =>
      (⟨false, "Holiday check failed, proceeding with caution", date.isoDate, none⟩,
       c2, f,
       ["Failed to check holiday status, proceeding with task execution"])

/-! ### `scheduleTask` tick handler (`scheduler.service.js`) -/

/-- outcome of the skip section of a tick of `scheduleTask`. -/
inductive TickSkip where
  | annualLeave (reason : Option String) (leave : Option Leave)
  | holiday (reason : String) (holiday : Option Holiday)
  | proceed (reason : String)
  | noCheck
deriving Repr, DecidableEq

def TickSkip.skips : TickSkip → Bool
  | TickSkip.annualLeave _ _ => true
  | TickSkip.holiday _ _ => true
  | TickSkip.proceed _ => false
  | TickSkip.noCheck => false

def TickSkip.logOf : TickSkip → List LogEntry
  | TickSkip.annualLeave r _ => [LogEntry.skipAnnualLeaveLog r]
  | TickSkip.holiday r _ => [LogEntry.skipHolidayLog r]
  | TickSkip.proceed r => [LogEntry.proceedLog r]
  | TickSkip.noCheck => []

/-- the skip section of the tick callback in `scheduleTask` (lines
88-117): annual leaves are consulted first (when that feature is on),
then holidays (when that feature is on); nothing is consulted unless
the task was scheduled with `skipOnHoliday`. -/
def tickSkipCheck (cfg : Config) (skipOnHoliday : Bool)
    (alRes : ALSkipResult) (holRes : HolSkipResult) : TickSkip :=
  if skipOnHoliday then
    if cfg.features.skipOnAnnualLeaves && alRes.shouldSkip then
      TickSkip.annualLeave alRes.reason alRes.leave
    else if cfg.features.skipOnHolidays then
      if holRes.shouldSkip then TickSkip.holiday holRes.reason holRes.holiday
      else TickSkip.proceed holRes.reason
    else TickSkip.noCheck
  else TickSkip.noCheck

/-- events of the single-threaded JS timeline the scheduler lives on:
a cron tick, the completion of one invocation of the work unit (with
its outcome), and the firing of a `setTimeout` retry timer. -/
inductive Ev where
  | tick
  | finish (attempt : Nat) (success : Bool)
  | retryFire (attempt : Nat)
deriving Repr, DecidableEq

/-- insert an event keeping the queue sorted by time; an event inserted
at an already-occupied time goes after the existing ones (JS timers at
equal deadlines fire in the order they were created). -/
def insertEv (x : Nat × Ev) : List (Nat × Ev) → List (Nat × Ev)
  | [] => [x]
  | y :: ys => if y.1 ≤ x.1 then y :: insertEv x ys else x :: y :: ys

structure SchedState where
  now : Nat
  isRunning : Bool
  queue : List (Nat × Ev)
  invocations : List Invocation
  invIdx : Nat
  log : List LogEntry
deriving Repr, DecidableEq

/-- environment of one scheduled task: the configuration, the
`skipOnHoliday` option, the work unit's behaviour by invocation index,
the duration of one invocation, and the results the two skip services
would report at a given time. -/
structure MachineCfg where
  cfg : Config
  skipOnHoliday : Bool
  behav : Nat → Bool
  dur : Nat
  alRes : Nat → ALSkipResult
  holRes : Nat → HolSkipResult

/-- process the earliest queued event, mirroring the tick callback of
`scheduleTask` and the body of `executeWithRetry`.

A tick while `isRunning` is a log-and-drop.  Otherwise the skip checks
run; if they pass, `isRunning` is set and attempt 1 of the work unit
starts (its completion is a later event, `dur` later).  The `finish` of
an attempt applies the try/catch of `executeWithRetry`: on failure with
retries left a `retryFire` timer is created `delayMs` later; and when
the finishing attempt is attempt 1 the promise chain started at the
tick settles, so its `finally` clears `isRunning` — scheduled retries
run detached and do not touch the flag.  A `retryFire` invokes the work
unit again with the incremented attempt counter. -/
def step (mc : MachineCfg) (s : SchedState) : SchedState :=
  match s.queue with
  | [] => s
  | (t, ev) :: rest =>
    match ev with
    | Ev.tick =>
      if s.isRunning then
        { s with now := t, queue := rest, log := s.log ++ [LogEntry.dropOverlap] }
      else
        let d := tickSkipCheck mc.cfg mc.skipOnHoliday (mc.alRes t) (mc.holRes t)
        if d.skips then
          { s with now := t, queue := rest,
                   log := s.log ++ LogEntry.triggeredLog :: d.logOf }
        else
          { s with now := t,
                   isRunning := true,
                   queue := insertEv (t + mc.dur, Ev.finish 1 (mc.behav s.invIdx)) rest,
                   invocations := s.invocations ++ [⟨t, 1⟩],
                   invIdx := s.invIdx + 1,
                   log := s.log ++ LogEntry.triggeredLog :: d.logOf }
    | Ev.finish a success =>
      let cleared := if a = 1 then false else s.isRunning
      if success then
        { s with now := t, queue := rest, isRunning := cleared,
                 log := s.log ++ (if 1 < a then [LogEntry.successOnRetry a] else []) }
      else
        if mc.cfg.features.retryMechanism = true ∧ a < mc.cfg.retry.maxAttempts then
          { s with now := t,
                   queue := insertEv (t + mc.cfg.delayMs, Ev.retryFire (a + 1)) rest,
                   isRunning := cleared,
                   log := s.log ++ [LogEntry.errorAttempt a mc.cfg.retry.maxAttempts,
                                    LogEntry.warnScheduleRetry (a + 1)] }
        else if mc.cfg.features.retryMechanism = false then
          { s with now := t, queue := rest, isRunning := cleared,
                   log := s.log ++ [LogEntry.errorAttempt a mc.cfg.retry.maxAttempts,
                                    LogEntry.warnRetryDisabled] }
        else
          { s with now := t, queue := rest, isRunning := cleared,
                   log := s.log ++ [LogEntry.errorAttempt a mc.cfg.retry.maxAttempts,
                                    LogEntry.finalFailure mc.cfg.retry.maxAttempts] }
    | Ev.retryFire a =>
      { s with now := t,
               queue := insertEv (t + mc.dur, Ev.finish a (mc.behav s.invIdx)) rest,
               invocations := s.invocations ++ [⟨t, a⟩],
               invIdx := s.invIdx + 1,
               log := s.log ++ [LogEntry.retryAttempt a] }

def runSteps (mc : MachineCfg) : Nat → SchedState → SchedState
  | 0, s => s
  | n + 1, s => runSteps mc n (step mc s)

/-- the state of a freshly scheduled task whose cron ticks will fire at
the given (sorted) times. -/
def initState (ticks : List Nat) : SchedState :=
  ⟨0, false, ticks.map (fun t => (t, Ev.tick)), [], 0, []⟩

/-! ### Clock service (`clock.service.js`) -/

/-- `String.prototype.includes`: the argument occurs inside the
receiver. -/
def jsIncludes (s sub : String) : Bool := decide (sub.toList <:+: s.toList)

/-- `String.prototype.trim`: drop whitespace from both ends. -/
def jsTrim (s : String) : String :=
  ⟨((s.data.dropWhile Char.isWhitespace).reverse.dropWhile Char.isWhitespace).reverse⟩

inductive ClockAction where
  | clockIn
  | clockOut
deriving Repr, DecidableEq

structure Selectors where
  clockInButton : String
  clockOutButton : String
  clockOutConfirmButton : Option String

/-- the browser operations `ClockService` relies on; each either
succeeds or rejects (a `waitFor…` rejects on timeout). -/
structure BrowserModel where
  waitForSelector : String → Except String Unit
  getInnerText : String → Except String String
  click : String → Except String Unit
  waitForButtonTextChange : String → String → Except String Unit

/-- `ClockService.getCurrentStatus`: wait for the clock-in button, read
its text, trim it. -/
def getCurrentStatus (b : BrowserModel) (sel : Selectors) : Except String String := do
  let _ ← b.waitForSelector sel.clockInButton
  let txt ← b.getInnerText sel.clockInButton
  pure (jsTrim txt)

/-- `ClockService.performClockAction`: wait, click, click the clock-out
confirmation modal when applicable, then verify the button text changed
to `expectedText` — a verification timeout rejects and the whole
operation fails.  On success, returns the selectors clicked. -/
def performClockAction (b : BrowserModel) (confirmSel : Option String)
    (action : ClockAction) (buttonSelector verificationSelector expectedText : String) :
    Except String (List String) := do
  let _ ← b.waitForSelector buttonSelector
  let _ ← b.click buttonSelector
  let confirmClicks ←
    match action, confirmSel with
    | ClockAction.clockOut, some csel => do
      let _ ← b.waitForSelector csel
      let _ ← b.click csel
      pure [csel]
    | _, _ => pure []
  let _ ← b.waitForButtonTextChange verificationSelector expectedText
  pure ([buttonSelector] ++ confirmClicks)

structure ClockResult where
  performed : Bool
  shouldSaveActivity : Bool
deriving Repr, DecidableEq

/-- `ClockService.clockIn`: a probe already showing "Clock Out" is a
no-op; otherwise click and verify, then report a fresh clock-in (which
should trigger the save-activity follow-up). -/
def clockIn (b : BrowserModel) (sel : Selectors) :
    Except String (ClockResult × List String) := do
  let currentStatus ← getCurrentStatus b sel
  if jsIncludes currentStatus "Clock Out" then
    pure (⟨false, false⟩, [])
  else do
    let clicks ← performClockAction b sel.clockOutConfirmButton ClockAction.clockIn
      sel.clockInButton sel.clockOutButton "Clock Out"
    pure (⟨true, true⟩, clicks)

/-- `ClockService.clockOut`: a probe already showing "Clock In" is a
no-op; a fresh clock-out never triggers the save-activity follow-up. -/
def clockOut (b : BrowserModel) (sel : Selectors) :
    Except String (ClockResult × List String) := do
  let currentStatus ← getCurrentStatus b sel
  if jsIncludes currentStatus "Clock In" then
    pure (⟨false, false⟩, [])
  else do
    let clicks ← performClockAction b sel.clockOutConfirmButton ClockAction.clockOut
      sel.clockOutButton sel.clockInButton "Clock In"
    pure (⟨true, false⟩, clicks)

/-! ### Concrete instances used in counterexamples and witnesses -/

/-- a scheduled task with retries enabled (3 attempts, 5 minute delay),
skip checks off, a work unit that always fails and takes one second. -/
def mcAllFail : MachineCfg :=
  ⟨⟨⟨true, false, false⟩, ⟨3, 5⟩⟩, false, fun _ => false, 1000,
   fun _ => ⟨false, none, ⟨0, 0, 0⟩, none⟩, fun _ => ⟨false, "", "", none⟩⟩

/-- a browser whose waits and clicks succeed but whose button text never
changes to the expected label, so post-click verification times out. -/
def stuckBrowser : BrowserModel :=
  ⟨fun _ => Except.ok (), fun _ => Except.ok "Clock In", fun _ => Except.ok (),
   fun _ _ => Except.error "verification timeout"⟩

/-- a browser whose status probe reports "Clock Out", i.e. the user is
already clocked in. -/
def clockedInBrowser : BrowserModel :=
  ⟨fun _ => Except.ok (), fun _ => Except.ok "Clock Out", fun _ => Except.ok (),
   fun _ _ => Except.ok ()⟩

def exSelectors : Selectors := ⟨"inBtn", "outBtn", some "confirmBtn"⟩

/-! ### Helper lemmas -/

theorem exBindOk {α β ε : Type} (a : α) (f : α → Except ε β) :
    (Except.ok a >>= f : Except ε β) = f a := rfl

theorem exBindErr {α β ε : Type} (e : ε) (f : α → Except ε β) :
    (Except.error e >>= f : Except ε β) = Except.error e := rfl

theorem exMapOk {α β ε : Type} (a : α) (f : α → β) :
    (f <$> (Except.ok a : Except ε α)) = Except.ok (f a) := rfl

theorem exMapErr {α β ε : Type} (e : ε) (f : α → β) :
    (f <$> (Except.error e : Except ε α)) = Except.error e := rfl

theorem exPure {α ε : Type} (a : α) : (pure a : Except ε α) = Except.ok a := rfl

/-- whatever the outcome, a retry chain entered at time `t` with counter
`attempt` performs its first invocation at exactly `(t, attempt)`. -/
theorem executeWithRetry_head (cfg : Config) (behav : Nat → Bool) (dur invIdx t a : Nat) :
    ∃ l, (executeWithRetry cfg behav dur invIdx t a).invocations = ⟨t, a⟩ :: l := by
  rw [executeWithRetry]
  split
  · exact ⟨[], rfl⟩
  · split
    · exact ⟨_, rfl⟩
    · split
      · exact ⟨[], rfl⟩
      · exact ⟨[], rfl⟩

/-- with retries enabled and an always-failing work unit, a chain
entered with counter `a` (where `a + k = maxAttempts`) performs the
attempts `a, a+1, …, maxAttempts` and logs the final failure. -/
theorem executeWithRetry_allFail (cfg : Config) (hr : cfg.features.retryMechanism = true)
    (dur : Nat) :
    ∀ (k invIdx t a : Nat), a + k = cfg.retry.maxAttempts → 1 ≤ a →
      (executeWithRetry cfg (fun _ => false) dur invIdx t a).invocations.map Invocation.attempt
        = List.range' a (k + 1) ∧
      LogEntry.finalFailure cfg.retry.maxAttempts ∈
        (executeWithRetry cfg (fun _ => false) dur invIdx t a).log := by
  intro k
  induction k with
  | zero =>
    intro invIdx t a hk ha
    rw [executeWithRetry]
    have hlt : ¬(cfg.features.retryMechanism = true ∧ a < cfg.retry.maxAttempts) := by omega
    have hne : ¬(cfg.features.retryMechanism = false) := by simp [hr]
    have hma : ¬ a < cfg.retry.maxAttempts := by omega
    simp [hlt, hne, hma, List.range'_succ]
  | succ k ih =>
    intro invIdx t a hk ha
    rw [executeWithRetry]
    have hlt : cfg.features.retryMechanism = true ∧ a < cfg.retry.maxAttempts :=
      ⟨hr, by omega⟩
    obtain ⟨ihm, ihmem⟩ := ih (invIdx + 1) (t + dur + cfg.delayMs) (a + 1) (by omega) (by omega)
    simp [hlt, ihm, ihmem, List.range'_succ]

theorem chain_succ_range' : ∀ (n s : Nat), List.Chain' (fun a b => b = a + 1) (List.range' s n)
  | 0, _ => List.chain'_nil
  | 1, s => by simp [List.range'_succ]
  | n + 2, s => by
    rw [List.range'_succ]
    refine List.Chain'.cons ?_ (chain_succ_range' (n + 1) (s + 1))
    simp [List.range'_succ]

/-! ### Claim theorems -/

/-- Claim C1 (counterexample): the claim says `isRunning` turns false
only when the whole execution chain — including pending retries — has
completed.  In the concrete always-failing scenario `mcAllFail` with
ticks at 0 and 60000: after the first attempt's handling (two machine
steps), `isRunning` is already false while the retry timer for attempt 2
(due at 301000) is still pending, so the chain is treated as complete
with retries outstanding. -/
theorem C1_isRunning_cleared_while_retry_pending_cex :
    (runSteps mcAllFail 2 (initState [0, 60000])).isRunning = false ∧
    (301000, Ev.retryFire 2) ∈ (runSteps mcAllFail 2 (initState [0, 60000])).queue := by
  decide

/-- Claim C1 (amended): `isRunning` is set true when a firing begins and
cleared as soon as the first attempt's handling completes — for any
state whose next event is the completion of attempt 1, the flag is false
afterwards, whether or not a retry was just scheduled.  Concretely, in
`mcAllFail` with ticks at 0 and 60000, after three machine steps the
tick at 60000 has invoked the work unit a second time (a second chain
with a fresh attempt counter) while the first chain's retry is still
pending at 301000: overlap is prevented only against the in-flight
first attempt, not against an execution chain whose retries are pending. -/
theorem C1_overlap_guard_amended :
    (∀ (mc : MachineCfg) (s : SchedState) (t : Nat) (succ : Bool) (rest : List (Nat × Ev)),
        s.queue = (t, Ev.finish 1 succ) :: rest → (step mc s).isRunning = false) ∧
    ((runSteps mcAllFail 3 (initState [0, 60000])).invocations = [⟨0, 1⟩, ⟨60000, 1⟩] ∧
     (301000, Ev.retryFire 2) ∈ (runSteps mcAllFail 3 (initState [0, 60000])).queue) := by
  constructor
  · intro mc s t succ rest hq
    cases succ
    · simp [step, hq]
      split <;> (try split) <;> simp
    · simp [step, hq]
  · decide

/-- Claim C1 (witness): the amended flag-clearing law applied to a
concrete state whose next event is the failing completion of attempt 1. -/
theorem C1_overlap_guard_amended_witness :
    (step mcAllFail ⟨1000, true, [(1000, Ev.finish 1 false)], [⟨0, 1⟩], 1, []⟩).isRunning
      = false :=
  C1_overlap_guard_amended.1 mcAllFail ⟨1000, true, [(1000, Ev.finish 1 false)], [⟨0, 1⟩], 1, []⟩
    1000 false [] rfl

/-- Claim C2: with `maxAttempts = 3`, delay `d` minutes and retries
enabled, a work unit failing on its first two invocations and succeeding
on the third is invoked exactly three times — at the entry time `t`
(attempt 1 runs immediately), then twice more with consecutive
invocations separated by at least the configured delay `d * 60 * 1000`
ms — and the distinguished `successOnRetry 3` event is logged. -/
theorem C2_fail_twice_succeed_third (d dur t : Nat) :
    (executeWithRetry ⟨⟨true, false, false⟩, ⟨3, d⟩⟩ (fun n => decide (2 ≤ n)) dur 0 t 1).invocations
        = [⟨t, 1⟩, ⟨t + dur + d * 60 * 1000, 2⟩,
           ⟨t + dur + d * 60 * 1000 + dur + d * 60 * 1000, 3⟩] ∧
    (executeWithRetry ⟨⟨true, false, false⟩, ⟨3, d⟩⟩ (fun n => decide (2 ≤ n)) dur 0 t 1).invocations.length = 3 ∧
    List.Chain' (fun a b => a.time + d * 60 * 1000 ≤ b.time)
      (executeWithRetry ⟨⟨true, false, false⟩, ⟨3, d⟩⟩ (fun n => decide (2 ≤ n)) dur 0 t 1).invocations ∧
    LogEntry.successOnRetry 3 ∈
      (executeWithRetry ⟨⟨true, false, false⟩, ⟨3, d⟩⟩ (fun n => decide (2 ≤ n)) dur 0 t 1).log := by
  have h : (executeWithRetry ⟨⟨true, false, false⟩, ⟨3, d⟩⟩ (fun n => decide (2 ≤ n)) dur 0 t 1).invocations
      = [⟨t, 1⟩, ⟨t + dur + d * 60 * 1000, 2⟩,
         ⟨t + dur + d * 60 * 1000 + dur + d * 60 * 1000, 3⟩] := by
    simp [executeWithRetry, Config.delayMs]
  refine ⟨h, by rw [h]; rfl, ?_, ?_⟩
  · rw [h]
    refine List.chain'_cons.mpr ⟨by dsimp only; omega,
      List.chain'_cons.mpr ⟨by dsimp only; omega, List.chain'_singleton _⟩⟩
  · simp [executeWithRetry, Config.delayMs]

/-- Claim C7: whenever the next event is a cron tick and the trigger's
`isRunning` flag is true, the step only logs the drop and discards the
tick: the work unit is not invoked, the skip policy is not consulted (the
result does not depend on either skip service), and nothing is queued
for later replay. -/
theorem C7_tick_while_running_dropped (mc : MachineCfg) (s : SchedState) (t : Nat)
    (rest : List (Nat × Ev)) (hq : s.queue = (t, Ev.tick) :: rest)
    (hr : s.isRunning = true) :
    step mc s = { s with now := t, queue := rest, log := s.log ++ [LogEntry.dropOverlap] } := by
  simp [step, hq, hr]

/-- Claim C7 (witness): a tick arriving at time 5 while a work unit is
running is dropped with only the overlap log entry. -/
theorem C7_tick_while_running_dropped_witness :
    step mcAllFail ⟨0, true, [(5, Ev.tick)], [], 0, []⟩
      = ⟨5, true, [], [], 0, [LogEntry.dropOverlap]⟩ :=
  C7_tick_while_running_dropped mcAllFail ⟨0, true, [(5, Ev.tick)], [], 0, []⟩ 5 [] rfl rfl

/-- Claim C9: with retries enabled and an always-failing work unit, the
chain started at attempt 1 invokes the work unit exactly `maxAttempts`
times, the attempt counters are exactly `1, 2, …, maxAttempts` (each
re-attempt enters with the previous counter plus one, never a fresh 1),
and the final failure is logged. -/
theorem C9_exhausts_max_attempts (cfg : Config) (hr : cfg.features.retryMechanism = true)
    (hm : 1 ≤ cfg.retry.maxAttempts) (dur invIdx t : Nat) :
    (executeWithRetry cfg (fun _ => false) dur invIdx t 1).invocations.length
        = cfg.retry.maxAttempts ∧
    (executeWithRetry cfg (fun _ => false) dur invIdx t 1).invocations.map Invocation.attempt
        = List.range' 1 cfg.retry.maxAttempts ∧
    List.Chain' (fun x y => y.attempt = x.attempt + 1)
      (executeWithRetry cfg (fun _ => false) dur invIdx t 1).invocations ∧
    LogEntry.finalFailure cfg.retry.maxAttempts ∈
      (executeWithRetry cfg (fun _ => false) dur invIdx t 1).log := by
  obtain ⟨hmap, hmem⟩ := executeWithRetry_allFail cfg hr dur (cfg.retry.maxAttempts - 1)
    invIdx t 1 (by omega) (by omega)
  have hmap2 : (executeWithRetry cfg (fun _ => false) dur invIdx t 1).invocations.map Invocation.attempt
      = List.range' 1 cfg.retry.maxAttempts := by
    rw [hmap]; congr 1; omega
  refine ⟨?_, hmap2, ?_, hmem⟩
  · have := congrArg List.length hmap2
    simpa using this
  · have hc := chain_succ_range' cfg.retry.maxAttempts 1
    rw [← hmap2] at hc
    rw [List.chain'_map] at hc
    exact hc

/-- Claim C9 (witness): the exhaustion law at `maxAttempts = 3`, delay 5
minutes, one-second work unit. -/
theorem C9_exhausts_max_attempts_witness :
    (executeWithRetry ⟨⟨true, false, false⟩, ⟨3, 5⟩⟩ (fun _ => false) 1000 0 0 1).invocations.length = 3 ∧
    (executeWithRetry ⟨⟨true, false, false⟩, ⟨3, 5⟩⟩ (fun _ => false) 1000 0 0 1).invocations.map Invocation.attempt
        = List.range' 1 3 ∧
    List.Chain' (fun x y => y.attempt = x.attempt + 1)
      (executeWithRetry ⟨⟨true, false, false⟩, ⟨3, 5⟩⟩ (fun _ => false) 1000 0 0 1).invocations ∧
    LogEntry.finalFailure 3 ∈
      (executeWithRetry ⟨⟨true, false, false⟩, ⟨3, 5⟩⟩ (fun _ => false) 1000 0 0 1).log :=
  C9_exhausts_max_attempts ⟨⟨true, false, false⟩, ⟨3, 5⟩⟩ rfl (by norm_num) 1000 0 0

/-- Claim C3: the annual-leave check skips exactly the dates lying in
some configured leave's inclusive `[startDate, endDate]` range
(date-only comparison); when it skips, the reported reason is the
annual-leave reason; in the tick handler the annual-leave check runs
before the weekend/holiday check, so a skipping leave wins whatever the
holiday service would say; and for the leave 2025-01-15..2025-01-16 the
dates 15 and 16 skip while 14 and 17 do not. -/
theorem C3_annual_leave_inclusive_range :
    (∀ (leaves : List Leave) (date : YMD),
        (alShouldSkipTask leaves date).shouldSkip = true ↔
          ∃ l ∈ leaves, YMD.le l.startDate date = true ∧ YMD.le date l.endDate = true) ∧
    (∀ (leaves : List Leave) (date : YMD),
        (alShouldSkipTask leaves date).shouldSkip = true →
          ∃ r, (alShouldSkipTask leaves date).reason = some ("Annual leave (" ++ r ++ ")")) ∧
    (∀ (cfg : Config) (alRes : ALSkipResult) (holRes : HolSkipResult),
        cfg.features.skipOnAnnualLeaves = true → alRes.shouldSkip = true →
        tickSkipCheck cfg true alRes holRes = TickSkip.annualLeave alRes.reason alRes.leave) ∧
    ((alShouldSkipTask [⟨⟨2025, 1, 15⟩, ⟨2025, 1, 16⟩, "annual", "trip"⟩] ⟨2025, 1, 15⟩).shouldSkip = true ∧
     (alShouldSkipTask [⟨⟨2025, 1, 15⟩, ⟨2025, 1, 16⟩, "annual", "trip"⟩] ⟨2025, 1, 16⟩).shouldSkip = true ∧
     (alShouldSkipTask [⟨⟨2025, 1, 15⟩, ⟨2025, 1, 16⟩, "annual", "trip"⟩] ⟨2025, 1, 14⟩).shouldSkip = false ∧
     (alShouldSkipTask [⟨⟨2025, 1, 15⟩, ⟨2025, 1, 16⟩, "annual", "trip"⟩] ⟨2025, 1, 17⟩).shouldSkip = false) := by
  refine ⟨?_, ?_, ?_, by decide⟩
  · intro leaves date
    unfold alShouldSkipTask getLeaveDetails
    rcases h : leaves.find? (fun l => YMD.le l.startDate date && YMD.le date l.endDate) with _ | l
    · rw [h]
      rw [List.find?_eq_none] at h
      simp only [Bool.and_eq_true] at h
      constructor
      · intro hfalse; cases hfalse
      · rintro ⟨l, hl, h1, h2⟩
        exact absurd ⟨h1, h2⟩ (h l hl)
    · have hmem := List.mem_of_find?_eq_some h
      have hp := List.find?_some h
      simp only [Bool.and_eq_true] at hp
      rw [h]
      exact ⟨fun _ => ⟨l, hmem, hp.1, hp.2⟩, fun _ => rfl⟩
  · intro leaves date
    unfold alShouldSkipTask
    rcases h : getLeaveDetails leaves date with _ | l
    · intro hfalse
      simp at hfalse
    · intro _
      exact ⟨if l.reason = "" then "no reason specified" else l.reason, rfl⟩
  · intro cfg alRes holRes hf hs
    simp [tickSkipCheck, hf, hs]

/-- Claim C3 (witness): a skipping annual-leave result wins in the tick
handler even against a holiday result that reports a weekend skip. -/
theorem C3_annual_leave_inclusive_range_witness :
    tickSkipCheck ⟨⟨true, true, true⟩, ⟨3, 5⟩⟩ true
        ⟨true, some "Annual leave (trip)", ⟨2025, 1, 18⟩, none⟩
        ⟨true, "Weekend", "2025-01-18", none⟩
      = TickSkip.annualLeave (some "Annual leave (trip)") none :=
  C3_annual_leave_inclusive_range.2.2.1 ⟨⟨true, true, true⟩, ⟨3, 5⟩⟩
    ⟨true, some "Annual leave (trip)", ⟨2025, 1, 18⟩, none⟩
    ⟨true, "Weekend", "2025-01-18", none⟩ rfl rfl

/-- Claim C4: when the remote holiday fetch is actually needed (cache
invalid) and throws, `shouldSkipTask` on a weekday fails open: the task
is not skipped, the distinguished check-failed reason is reported, and
the failure is logged as a warning. -/
theorem C4_holiday_fetch_fail_open (c : HolidayCache) (now : Nat) (e : String)
    (date : JSDate) (hw : isWeekday date = true) (hc : isCacheValid c now = false) :
    holShouldSkipTask c now (Except.error e) date =
      (⟨false, "Holiday check failed, proceeding with caution", date.isoDate, none⟩, c, true,
       ["Failed to check holiday status, proceeding with task execution"]) := by
  simp [holShouldSkipTask, isHoliday, getHolidays, hw, hc]

/-- Claim C4 (witness): a failing fetch on a Wednesday with an empty
cache does not block the task. -/
theorem C4_holiday_fetch_fail_open_witness :
    holShouldSkipTask ⟨[], none⟩ 0 (Except.error "network") ⟨(3 : Fin 7), "2025-01-15"⟩ =
      (⟨false, "Holiday check failed, proceeding with caution", "2025-01-15", none⟩,
       ⟨[], none⟩, true,
       ["Failed to check holiday status, proceeding with task execution"]) :=
  C4_holiday_fetch_fail_open ⟨[], none⟩ 0 "network" ⟨(3 : Fin 7), "2025-01-15"⟩ rfl rfl

/-- Claim C8: on a Saturday or Sunday, `shouldSkipTask` skips with
reason "Weekend"; the result is the same whatever the remote fetch would
return, the cache is untouched and no fetch is performed — the weekend
determination never queries the holiday cache. -/
theorem C8_weekend_skip_without_cache (date : JSDate)
    (hd : date.dayOfWeek.val = 0 ∨ date.dayOfWeek.val = 6)
    (c : HolidayCache) (now : Nat) (fr : Except String (List Holiday)) :
    holShouldSkipTask c now fr date = (⟨true, "Weekend", date.isoDate, none⟩, c, false, []) := by
  have hw : isWeekday date = false := by
    unfold isWeekday
    rcases hd with h | h <;> simp [h]
  simp [holShouldSkipTask, hw]

/-- Claim C8 (witness): Saturday 2025-01-18 skips with reason "Weekend"
without fetching. -/
theorem C8_weekend_skip_without_cache_witness :
    holShouldSkipTask ⟨[], none⟩ 0 (Except.ok []) ⟨(6 : Fin 7), "2025-01-18"⟩ =
      (⟨true, "Weekend", "2025-01-18", none⟩, ⟨[], none⟩, false, []) :=
  C8_weekend_skip_without_cache ⟨(6 : Fin 7), "2025-01-18"⟩ (Or.inr rfl) ⟨[], none⟩ 0
    (Except.ok [])

/-- Claim C10: the holiday cache is never valid while its holiday list
is empty or `lastFetched` is unset; a fetch that returned zero holidays
leaves a cache on which every later `getHolidays` performs a fresh
remote fetch; and a fetch that returned a non-empty list (at a positive
clock value) makes later calls within the 24-hour window answer from the
cache with no fetch. -/
theorem C10_empty_cache_never_valid :
    (∀ (lf : Option Nat) (now : Nat), isCacheValid ⟨[], lf⟩ now = false) ∧
    (∀ (hs : List Holiday) (now : Nat), isCacheValid ⟨hs, none⟩ now = false) ∧
    (∀ (c : HolidayCache) (t : Nat), isCacheValid c t = false →
        (getHolidays c t (Except.ok [])).2.1 = ⟨[], some t⟩) ∧
    (∀ (t now : Nat) (fr : Except String (List Holiday)),
        (getHolidays ⟨[], some t⟩ now fr).2.2 = true) ∧
    (∀ (hs : List Holiday) (t now : Nat) (fr : Except String (List Holiday)),
        hs ≠ [] → 0 < t → (now - t) / (1000 * 60 * 60) < cacheValidHours →
        getHolidays ⟨hs, some t⟩ now fr = (Except.ok hs, ⟨hs, some t⟩, false)) := by
  refine ⟨?_, ?_, ?_, ?_, ?_⟩
  · intro lf now; unfold isCacheValid; cases lf <;> simp
  · intro hs now; unfold isCacheValid; simp
  · intro c t hc; simp [getHolidays, hc]
  · intro t now fr
    have hv : isCacheValid ⟨[], some t⟩ now = false := by unfold isCacheValid; simp
    simp [getHolidays, hv]
    cases fr <;> simp
  · intro hs t now fr hne ht hlt
    have hv : isCacheValid ⟨hs, some t⟩ now = true := by
      unfold isCacheValid
      simp [Nat.pos_iff_ne_zero.mp ht, hne, hlt]
    simp [getHolidays, hv]

/-- Claim C10 (witness): a non-empty fetch cached at time 1 suppresses
refetching at time 1000, even when the remote would now fail. -/
theorem C10_empty_cache_never_valid_witness :
    getHolidays ⟨[⟨"New Year", "2025-01-01", ""⟩], some 1⟩ 1000 (Except.error "net") =
      (Except.ok [⟨"New Year", "2025-01-01", ""⟩], ⟨[⟨"New Year", "2025-01-01", ""⟩], some 1⟩,
       false) :=
  C10_empty_cache_never_valid.2.2.2.2 [⟨"New Year", "2025-01-01", ""⟩] 1 1000
    (Except.error "net") (by simp) (by norm_num) (by norm_num [cacheValidHours])

/-- Claim C5: if the waits and clicks all succeed but the post-click
verification probe never shows the expected opposite label (the bounded
wait rejects), `performClockAction` is a hard failure — it returns the
verification error, never success, even though the click itself did not
throw; and a failure of the work unit's first invocation is subject to
retry: with retries enabled the chain enters a second invocation with
attempt counter 2. -/
theorem C5_verification_timeout_hard_failure :
    (∀ (b : BrowserModel) (confirmSel : Option String) (action : ClockAction)
        (bsel vsel etext e : String),
        (∀ s, b.waitForSelector s = Except.ok ()) →
        (∀ s, b.click s = Except.ok ()) →
        b.waitForButtonTextChange vsel etext = Except.error e →
        performClockAction b confirmSel action bsel vsel etext = Except.error e) ∧
    (∀ (cfg : Config) (behav : Nat → Bool) (dur t : Nat),
        cfg.features.retryMechanism = true → 1 < cfg.retry.maxAttempts →
        behav 0 = false →
        ∃ inv ∈ (executeWithRetry cfg behav dur 0 t 1).invocations, inv.attempt = 2) := by
  constructor
  · intro b confirmSel action bsel vsel etext e hw hc he
    cases action <;> cases confirmSel <;>
      simp [performClockAction, hw, hc, he, exBindOk, exBindErr, exPure]
  · intro cfg behav dur t hr hm hb
    rw [executeWithRetry]
    simp only [hb]
    have hcond : cfg.features.retryMechanism = true ∧ 1 < cfg.retry.maxAttempts := ⟨hr, hm⟩
    rw [dif_pos hcond]
    obtain ⟨l, hl⟩ := executeWithRetry_head cfg behav dur 1 (t + dur + cfg.delayMs) 2
    refine ⟨⟨t + dur + cfg.delayMs, 2⟩, ?_, rfl⟩
    simp [hl]

/-- Claim C5 (witness): on a browser whose verification wait always
times out, a clock-in whose click succeeded still fails. -/
theorem C5_verification_timeout_hard_failure_witness :
    performClockAction stuckBrowser none ClockAction.clockIn "inBtn" "outBtn" "Clock Out"
      = Except.error "verification timeout" :=
  C5_verification_timeout_hard_failure.1 stuckBrowser none ClockAction.clockIn
    "inBtn" "outBtn" "Clock Out" "verification timeout"
    (fun _ => rfl) (fun _ => rfl) rfl

/-- Claim C6: when the probed label already reflects the desired state
(clock-in sees "Clock Out", clock-out sees "Clock In") the operation
returns `performed = false, shouldSaveActivity = false` and issues no
click; a successful clock-in reports the save-activity follow-up exactly
when it actually performed the action, and a clock-out never does. -/
theorem C6_noop_when_state_already_reached :
    (∀ (b : BrowserModel) (sel : Selectors) (st : String),
        getCurrentStatus b sel = Except.ok st →
        (jsIncludes st "Clock Out" = true → clockIn b sel = Except.ok (⟨false, false⟩, [])) ∧
        (jsIncludes st "Clock In" = true → clockOut b sel = Except.ok (⟨false, false⟩, []))) ∧
    (∀ (b : BrowserModel) (sel : Selectors) (r : ClockResult) (clicks : List String),
        clockIn b sel = Except.ok (r, clicks) → r.performed = true →
          r.shouldSaveActivity = true) ∧
    (∀ (b : BrowserModel) (sel : Selectors) (r : ClockResult) (clicks : List String),
        clockOut b sel = Except.ok (r, clicks) → r.shouldSaveActivity = false) := by
  refine ⟨?_, ?_, ?_⟩
  · intro b sel st h
    constructor
    · intro hi
      simp [clockIn, h, hi, exBindOk, exPure]
    · intro hi
      simp [clockOut, h, hi, exBindOk, exPure]
  · intro b sel r clicks h hp
    unfold clockIn at h
    rcases hs : getCurrentStatus b sel with e | st
    · rw [hs] at h; cases h
    · rw [hs] at h
      rw [exBindOk] at h
      by_cases hi : jsIncludes st "Clock Out" = true
      · simp [hi, exPure] at h
        rw [← h.1] at hp
        cases hp
      · simp [hi] at h
        rcases hp2 : performClockAction b sel.clockOutConfirmButton ClockAction.clockIn
            sel.clockInButton sel.clockOutButton "Clock Out" with e2 | cl
        · rw [hp2] at h; cases h
        · rw [hp2] at h
          simp [exMapOk] at h
          rw [← h.1]
  · intro b sel r clicks h
    unfold clockOut at h
    rcases hs : getCurrentStatus b sel with e | st
    · rw [hs] at h; cases h
    · rw [hs] at h
      rw [exBindOk] at h
      by_cases hi : jsIncludes st "Clock In" = true
      · simp [hi, exPure] at h
        rw [← h.1]
      · simp [hi] at h
        rcases hp2 : performClockAction b sel.clockOutConfirmButton ClockAction.clockOut
            sel.clockOutButton sel.clockInButton "Clock In" with e2 | cl
        · rw [hp2] at h; cases h
        · rw [hp2] at h
          simp [exMapOk] at h
          rw [← h.1]

/-- Claim C6 (witness): with the probe already showing "Clock Out",
clock-in is a no-op with no click and no follow-up. -/
theorem C6_noop_when_state_already_reached_witness :
    clockIn clockedInBrowser exSelectors = Except.ok (⟨false, false⟩, []) :=
  (C6_noop_when_state_already_reached.1 clockedInBrowser exSelectors "Clock Out" rfl).1 rfl

end ClockBot
